import Mathlib

/-!
Shallow embedding of the gridworld package: the environment state machine
(`src/gridworld/__init__.py`), the round-robin scheduler
(`src/gridworld/scheduler.py`) and the opposite-direction occupancy sensor
(`src/gridworld/sensors.py`).

Conventions of the embedding: Python lists indexed by agent index become
Lean lists read with `getD`; Python float rewards become `ℚ` (every reward
value the source produces is `0.0`, the configured collision penalty or the
configured delivery reward, each obtained as `0.0 + c`, which is exact in
floating point, so the rational embedding is faithful on the properties
below); a Python call that can raise an error becomes an `Option`-valued
function with `none` standing for the raised error, which is faithful here
because in the source every such raise happens before any state mutation.
-/

namespace GridWorld

/-- A grid position `(row, column)`.  The source stores positions as
two-element lists `[row, col]`; a list of fixed length two with integer
entries is embedded as a pair. -/
abbrev Pos := ℕ × ℕ

/-- The state of a `GridWorldEnv` object: exactly the attributes assigned in
`GridWorldEnv.__init__` (src/gridworld/__init__.py lines 45-48) and
`GridWorldEnv.reset` (lines 61-81). -/
structure Env where
  grid_size : ℕ
  num_agents : ℕ
  collision_penalty : ℚ
  delivery_reward : ℚ
  location_A : Pos
  location_B : Pos
  agent_positions : List Pos
  carrying : List ℕ
  directions : List ℕ
  steps : ℕ
  total_reward : ℚ
  total_collisions : ℕ
  total_deliveries : ℕ
deriving DecidableEq, Repr

/-- `GridWorldEnv.reset` (lines 53-84).  The two random draws of the site
positions are passed in as parameters `locA` and `locB`; the caller of this
definition supplies the constraint the source loop enforces (`locA ≠ locB`,
both inside the grid) as hypotheses where needed.  Every agent starts at
`locA` with `carrying = 0` and direction `0` (A→B), and all four episode
counters are zeroed. -/
def resetEnv (grid_size num_agents : ℕ) (cp dr : ℚ) (locA locB : Pos) : Env :=
  { grid_size := grid_size
    num_agents := num_agents
    collision_penalty := cp
    delivery_reward := dr
    location_A := locA
    location_B := locB
    agent_positions := List.replicate num_agents locA
    carrying := List.replicate num_agents 0
    directions := List.replicate num_agents 0
    steps := 0
    total_reward := 0
    total_collisions := 0
    total_deliveries := 0 }

/-- `GridWorldEnv._get_next_position` (lines 158-171): apply an action code to
a position, clamped at the grid boundary; any action code outside
`{0 = NORTH, 1 = SOUTH, 2 = WEST, 3 = EAST}` falls through every branch and
leaves the position unchanged (the source raises no error for it). -/
def getNextPosition (grid_size : ℕ) (pos : Pos) (action : ℕ) : Pos :=
  if action = 0 ∧ 0 < pos.1 then (pos.1 - 1, pos.2)
  else if action = 1 ∧ pos.1 < grid_size - 1 then (pos.1 + 1, pos.2)
  else if action = 2 ∧ 0 < pos.2 then (pos.1, pos.2 - 1)
  else if action = 3 ∧ pos.2 < grid_size - 1 then (pos.1, pos.2 + 1)
  else pos

/-- The group of agent indices whose candidate position equals `p`: the
entry `pos_to_agents[p]` of the dict built in
`GridWorldEnv._detect_collisions` (lines 184-190). -/
def collisionGroup (nps : List Pos) (p : Pos) : List ℕ :=
  (List.range nps.length).filter (fun j => decide (nps.getD j (0, 0) = p))

/-- Membership test of agent `i` in the collision set computed by
`GridWorldEnv._detect_collisions` (lines 173-217).  The source adds a whole
group of `pos_to_agents` to the result set when the group's cell is neither
site, the group has more than one member, and the group contains both a
`directions == 0` agent and a `directions != 0` agent (the `else` branch of
line 210 treats every nonzero direction as B→A).  An index `i` lands in that
set exactly when its own group — the agents sharing `i`'s candidate
position — qualifies, which is the test implemented here. -/
def isCollided (locA locB : Pos) (dirs : List ℕ) (nps : List Pos) (i : ℕ) : Bool :=
  if nps.getD i (0, 0) = locA ∨ nps.getD i (0, 0) = locB then false
  else if (collisionGroup nps (nps.getD i (0, 0))).length ≤ 1 then false
  else
    ((collisionGroup nps (nps.getD i (0, 0))).any (fun j => decide (dirs.getD j 0 = 0))) &&
    ((collisionGroup nps (nps.getD i (0, 0))).any (fun j => ! decide (dirs.getD j 0 = 0)))

/-- The outcome of the per-agent body of the update loop in
`GridWorldEnv.step` (lines 112-133) for one agent: its new position, carry
flag, direction, the reward accumulated for it this tick, and whether it was
counted as a collision (`total_collisions += 1`) or a delivery
(`total_deliveries += 1`). -/
structure AgentResult where
  pos : Pos
  carry : ℕ
  dir : ℕ
  reward : ℚ
  collided : Bool
  delivered : Bool
deriving DecidableEq, Repr

/-- The body of the update loop of `GridWorldEnv.step` (lines 112-133) for a
single agent.  Each loop iteration reads and writes only the entries of
`agent_positions`, `carrying`, `directions` and `rewards` belonging to that
agent (the collision set and the site locations were computed before the
loop), so the loop is embedded as this per-agent function mapped over the
agent indices.  A collided agent keeps its position and receives the
collision penalty (`rewards[i]` starts at `0.0`, so `+=` yields exactly the
penalty); a non-collided agent moves to its candidate and then runs the
pickup / delivery checks of lines 121-133 against its new position and its
pre-move direction and carry flag. -/
def updateAgent (locA locB : Pos) (cp dr : ℚ) (collided : Bool)
    (pos nextPos : Pos) (carry dir : ℕ) : AgentResult :=
  if collided then
    { pos := pos, carry := carry, dir := dir, reward := cp,
      collided := true, delivered := false }
  else if nextPos = locA ∧ dir = 1 then
    { pos := nextPos, carry := 1, dir := 0, reward := 0,
      collided := false, delivered := false }
  else if nextPos = locB ∧ dir = 0 then
    if carry = 1 then
      { pos := nextPos, carry := 0, dir := 1, reward := dr,
        collided := false, delivered := true }
    else
      { pos := nextPos, carry := carry, dir := dir, reward := 0,
        collided := false, delivered := false }
  else
    { pos := nextPos, carry := carry, dir := dir, reward := 0,
      collided := false, delivered := false }

/-- The candidate ("next") positions computed by the first loop of
`GridWorldEnv.step` (lines 102-105). -/
def nextPositionsOf (env : Env) (actions : List ℕ) : List Pos :=
  (List.range env.num_agents).map (fun i =>
    getNextPosition env.grid_size (env.agent_positions.getD i (0, 0)) (actions.getD i 0))

/-- The per-agent outcomes of one `step` call: `updateAgent` applied at every
agent index, with the collision set evaluated on the candidate positions and
the pre-move directions. -/
def agentResults (env : Env) (actions : List ℕ) : List AgentResult :=
  (List.range env.num_agents).map (fun i =>
    updateAgent env.location_A env.location_B env.collision_penalty env.delivery_reward
      (isCollided env.location_A env.location_B env.directions (nextPositionsOf env actions) i)
      (env.agent_positions.getD i (0, 0))
      ((nextPositionsOf env actions).getD i (0, 0))
      (env.carrying.getD i 0) (env.directions.getD i 0))

/-- `GridWorldEnv.step` (lines 86-152).  The source first asserts
`len(actions) == num_agents` (line 96) before any mutation, so a failing call
is embedded as `none` with the pre-call state untouched; a successful call
returns the updated state together with the per-agent reward list.  The
returned observations, `done = False` and the info dict of the source are
projections of the returned state and are not separately materialised. -/
def step (env : Env) (actions : List ℕ) : Option (Env × List ℚ) :=
  if actions.length = env.num_agents then
    some
      ({ env with
          steps := env.steps + 1
          agent_positions := (agentResults env actions).map (fun r => r.pos)
          carrying := (agentResults env actions).map (fun r => r.carry)
          directions := (agentResults env actions).map (fun r => r.dir)
          total_collisions := env.total_collisions +
            ((agentResults env actions).filter (fun r => r.collided)).length
          total_deliveries := env.total_deliveries +
            ((agentResults env actions).filter (fun r => r.delivered)).length
          total_reward := env.total_reward +
            ((agentResults env actions).map (fun r => r.reward)).sum },
        (agentResults env actions).map (fun r => r.reward))
  else none

/-- The environment states reachable through the public interface: a state
produced by `reset` (with sites drawn inside the grid and distinct, as
`_random_position` and the re-draw loop of lines 61-66 guarantee), or the
result of a successful `step` on a reachable state. -/
inductive Reachable : Env → Prop
  | init (gs n : ℕ) (cp dr : ℚ) (locA locB : Pos)
      (hA : locA.1 < gs ∧ locA.2 < gs) (hB : locB.1 < gs ∧ locB.2 < gs)
      (hne : locA ≠ locB) : Reachable (resetEnv gs n cp dr locA locB)
  | next (env : Env) (actions : List ℕ) (env' : Env) (rewards : List ℚ)
      (h : Reachable env) (hs : step env actions = some (env', rewards)) :
      Reachable env'

/-- The "dead system" invariant: every carry flag and every direction reads 0,
and the three reward / event counters are 0. -/
def DeadInv (env : Env) : Prop :=
  (∀ i, env.carrying.getD i 0 = 0) ∧ (∀ i, env.directions.getD i 0 = 0) ∧
  env.total_reward = 0 ∧ env.total_collisions = 0 ∧ env.total_deliveries = 0

/-- A concrete freshly reset environment with the default configuration
(grid 5, 4 agents, penalty -10, reward 1) and sites at (0,0) and (1,1). -/
def envC : Env := resetEnv 5 4 (-10) 1 (0, 0) (1, 1)

/-- A concrete two-agent state in which the agents travel opposite legs and
their next actions send both to the same non-site cell (2,2). -/
def envCollide : Env :=
  { grid_size := 5, num_agents := 2, collision_penalty := -10, delivery_reward := 1
    location_A := (0, 0), location_B := (4, 4)
    agent_positions := [(2, 1), (2, 3)], carrying := [0, 1], directions := [0, 1]
    steps := 0, total_reward := 0, total_collisions := 0, total_deliveries := 0 }

/-- The state and reward list `step envCollide [3, 2]` produces. -/
def envCollideStep : Env × List ℚ := (step envCollide [3, 2]).getD (envCollide, [])

/-- A concrete two-agent state in which agent 0 is one cell west of site B,
carrying, on the outbound leg: action EAST delivers. -/
def envDeliver : Env :=
  { grid_size := 5, num_agents := 2, collision_penalty := -10, delivery_reward := 1
    location_A := (0, 0), location_B := (4, 4)
    agent_positions := [(4, 3), (0, 0)], carrying := [1, 0], directions := [0, 0]
    steps := 0, total_reward := 0, total_collisions := 0, total_deliveries := 0 }

/-- The state and reward list `step envDeliver [3, 0]` produces. -/
def envDeliverStep : Env × List ℚ := (step envDeliver [3, 0]).getD (envDeliver, [])

/-- `CentralClock` (src/gridworld/scheduler.py lines 13-70): an ordered base
list of agent identifiers together with the position of its
`itertools.cycle` iterator, embedded as the count of calls already served
from the current base list — `itertools.cycle(l)` over a fixed list serves
`l[k mod len(l)]` on its k-th call, and the source rebuilds the iterator from
scratch whenever the base list changes (shuffle, line 70). -/
structure CentralClock where
  agent_ids : List ℤ
  idx : ℕ
deriving DecidableEq, Repr

/-- `CentralClock.__init__` (lines 26-34): copy the id list and start a fresh
cycle over it. -/
def CentralClock.init (ids : List ℤ) : CentralClock := ⟨ids, 0⟩

/-- `CentralClock.__next__` (lines 45-52): serve the next id of the cycle.
`next` on a cycle of an empty list raises StopIteration, embedded as
`none`. -/
def CentralClock.next (c : CentralClock) : Option (ℤ × CentralClock) :=
  if c.agent_ids.isEmpty then none
  else some (c.agent_ids.getD (c.idx % c.agent_ids.length) 0, ⟨c.agent_ids, c.idx + 1⟩)

/-- `CentralClock.shuffle` with an explicit new order (lines 61-64 and 70):
the source asserts `set(new_order) == set(self.agent_ids)` — set equality of
the two id lists, embedded with `List.toFinset` — and on success installs
`new_order` as the base list and rebuilds the cycle from its start; a failed
assert is `none`.  (The `new_order is None` branch, a random in-place
shuffle, is outside the claims considered and not embedded.) -/
def CentralClock.shuffle (c : CentralClock) (new_order : List ℤ) : Option CentralClock :=
  if new_order.toFinset = c.agent_ids.toFinset then some ⟨new_order, 0⟩ else none

/-- The value served by the k-th `__next__` call (0-indexed) on a clock,
`none` if any of those calls raises. -/
def nthYield : CentralClock → ℕ → Option ℤ
  | c, 0 => (CentralClock.next c).map Prod.fst
  | c, k + 1 =>
    match CentralClock.next c with
    | none => none
    | some (_, c') => nthYield c' k

/-- One entry of the `agent_states` table the sensor reads: a position tuple
and a direction flag (src/gridworld/sensors.py lines 52-53, 77-78).  Sensor
positions are `(x, y)` integer tuples, which may leave the grid under the
offsets of `neighbour_coords`, hence `ℤ`. -/
structure AgentSnapshot where
  position : ℤ × ℤ
  direction : ℕ
deriving DecidableEq, Repr

/-- The sensor's view of its `env` argument: a grid size and the
`agent_states` dict, embedded as an association list from agent id to
snapshot. -/
structure SensorEnv where
  grid_size : ℤ
  agent_states : List (ℕ × AgentSnapshot)
deriving DecidableEq, Repr

/-- Dict indexing `agent_states[agent_id]` (sensors.py lines 52-53): the
entry stored under the id, `none` (KeyError) when absent. -/
def lookupState (table : List (ℕ × AgentSnapshot)) (id : ℕ) : Option AgentSnapshot :=
  (table.find? (fun p => decide (p.1 = id))).map (fun p => p.2)

/-- `neighbour_coords` (sensors.py lines 12-33): the 8 Moore-neighbour
coordinates of a position, in the fixed order NW, N, NE, W, E, SW, S, SE. -/
def neighbour_coords (pos : ℤ × ℤ) : List (ℤ × ℤ) :=
  [(pos.1 - 1, pos.2 - 1), (pos.1 - 1, pos.2), (pos.1 - 1, pos.2 + 1),
   (pos.1, pos.2 - 1), (pos.1, pos.2 + 1),
   (pos.1 + 1, pos.2 - 1), (pos.1 + 1, pos.2), (pos.1 + 1, pos.2 + 1)]

/-- `opp_dir_mask` (sensors.py lines 36-86) over an `agent_states` snapshot:
look the querying agent up (KeyError → `none`), then for each of the 8
neighbour cells emit `false` when the cell is outside the grid and otherwise
whether some other agent sits exactly there with the opposite direction flag
(the source's inner loop with `break` is `List.any`).  The function reads the
snapshot only — it mutates nothing. -/
def opp_dir_mask (env : SensorEnv) (agent_id : ℕ) : Option (List Bool) :=
  match lookupState env.agent_states agent_id with
  | none => none
  | some st =>
    some ((neighbour_coords st.position).map (fun q =>
      if ¬ (0 ≤ q.1 ∧ q.1 < env.grid_size ∧ 0 ≤ q.2 ∧ q.2 < env.grid_size) then false
      else env.agent_states.any (fun p =>
        decide (p.1 ≠ agent_id ∧ p.2.position = q ∧ p.2.direction ≠ st.direction))))

/-- The neighbour cell is inside the grid (sensors.py line 67). -/
def inGrid (grid_size : ℤ) (q : ℤ × ℤ) : Prop :=
  0 ≤ q.1 ∧ q.1 < grid_size ∧ 0 ≤ q.2 ∧ q.2 < grid_size

instance (grid_size : ℤ) (q : ℤ × ℤ) : Decidable (inGrid grid_size q) := by
  unfold inGrid; infer_instance

/-- The sensor snapshot of §8 of the specification: agent 0 at (2,2) on the
outbound leg, agent 1 at (1,1) on the return leg, on a 5×5 grid. -/
def sensorEnvW : SensorEnv := ⟨5, [(0, ⟨(2, 2), 0⟩), (1, ⟨(1, 1), 1⟩)]⟩

/-- The complete list of attribute names a `GridWorldEnv` object ever has:
the assignments of `__init__` (src/gridworld/__init__.py lines 45-48) and of
`reset` (lines 61-81), which every constructed instance runs (line 51).  No
other method assigns a new attribute. -/
def gridWorldEnvAttrNames : List String :=
  ["grid_size", "num_agents", "collision_penalty", "delivery_reward",
   "location_A", "location_B", "agent_positions", "carrying", "directions",
   "steps", "total_reward", "total_collisions", "total_deliveries"]

/-- The attribute `opp_dir_mask` reads off its `env` argument as its first
statement (sensors.py line 49: `agent_states = env.agent_states`). -/
def oppDirMaskRequiredAttr : String := "agent_states"

/-- The values of a `GridWorldEnv` attribute, one constructor per field
type. -/
inductive EnvAttrVal
  | natV : ℕ → EnvAttrVal
  | ratV : ℚ → EnvAttrVal
  | posV : Pos → EnvAttrVal
  | posListV : List Pos → EnvAttrVal
  | natListV : List ℕ → EnvAttrVal
deriving DecidableEq, Repr

/-- Python attribute access `env.<name>` on a `GridWorldEnv` instance:
`some` of the stored field for each attribute `__init__` / `reset` assigns,
`none` (AttributeError) for every other name. -/
def envGetAttr (env : Env) (name : String) : Option EnvAttrVal :=
  if name = "grid_size" then some (.natV env.grid_size)
  else if name = "num_agents" then some (.natV env.num_agents)
  else if name = "collision_penalty" then some (.ratV env.collision_penalty)
  else if name = "delivery_reward" then some (.ratV env.delivery_reward)
  else if name = "location_A" then some (.posV env.location_A)
  else if name = "location_B" then some (.posV env.location_B)
  else if name = "agent_positions" then some (.posListV env.agent_positions)
  else if name = "carrying" then some (.natListV env.carrying)
  else if name = "directions" then some (.natListV env.directions)
  else if name = "steps" then some (.natV env.steps)
  else if name = "total_reward" then some (.ratV env.total_reward)
  else if name = "total_collisions" then some (.natV env.total_collisions)
  else if name = "total_deliveries" then some (.natV env.total_deliveries)
  else none

/-! ### Helper lemmas -/

/-- Reading index `i < n` of a list built by mapping `f` over `0, …, n-1`
yields `f i`. -/
theorem getD_map_range {α : Type} (n : ℕ) (f : ℕ → α) (i : ℕ) (hi : i < n) (d : α) :
    ((List.range n).map f).getD i d = f i := by
  rw [List.getD_eq_getElem?_getD, List.getElem?_map, List.getElem?_range hi]
  rfl

/-- Reading index `i < l.length` of `l.map f` yields `f` of the entry. -/
theorem getD_map {α β : Type} (l : List α) (f : α → β) (i : ℕ) (hi : i < l.length)
    (d : α) (d' : β) : (l.map f).getD i d' = f (l.getD i d) := by
  rw [List.getD_eq_getElem?_getD, List.getElem?_map, List.getD_eq_getElem?_getD,
    List.getElem?_eq_getElem hi]
  rfl

/-- Any read of a replicated-zero list yields 0. -/
theorem getD_replicate_zero (n i : ℕ) : (List.replicate n (0 : ℕ)).getD i 0 = 0 := by
  rw [List.getD_eq_getElem?_getD, List.getElem?_replicate]
  split <;> rfl

/-- Unpacking a successful `step` call into the equations the source's
update loop establishes. -/
theorem step_some_eq {env : Env} {actions : List ℕ} {env' : Env} {rewards : List ℚ}
    (h : step env actions = some (env', rewards)) :
    actions.length = env.num_agents ∧
    rewards = (agentResults env actions).map (fun r => r.reward) ∧
    env'.agent_positions = (agentResults env actions).map (fun r => r.pos) ∧
    env'.carrying = (agentResults env actions).map (fun r => r.carry) ∧
    env'.directions = (agentResults env actions).map (fun r => r.dir) ∧
    env'.total_deliveries = env.total_deliveries +
      ((agentResults env actions).filter (fun r => r.delivered)).length ∧
    env'.total_collisions = env.total_collisions +
      ((agentResults env actions).filter (fun r => r.collided)).length ∧
    env'.total_reward = env.total_reward +
      ((agentResults env actions).map (fun r => r.reward)).sum ∧
    env'.steps = env.steps + 1 ∧
    env'.location_A = env.location_A ∧ env'.location_B = env.location_B ∧
    env'.num_agents = env.num_agents ∧ env'.grid_size = env.grid_size ∧
    env'.collision_penalty = env.collision_penalty ∧
    env'.delivery_reward = env.delivery_reward := by
  by_cases hlen : actions.length = env.num_agents
  · unfold step at h
    rw [if_pos hlen] at h
    injection h with h1
    injection h1 with hE hR
    subst hE
    subst hR
    exact ⟨hlen, rfl, rfl, rfl, rfl, rfl, rfl, rfl, rfl, rfl, rfl, rfl, rfl, rfl, rfl⟩
  · unfold step at h
    rw [if_neg hlen] at h
    cases h

/-! ### Claims -/

/-- C7: `step(actions)` with `len(actions) ≠ N` fails with an `InvalidInput`
error and mutates no environment state.  The source asserts the length
(line 96) before its first mutation (`self.steps += 1`, line 99), so the
failing call is embedded as the `none` result of a pure function: no
successor state exists, and the caller's pre-call state — positions, carry
flags, legs, sites and all four counters — is exactly as before. -/
theorem step_length_guard (env : Env) (actions : List ℕ)
    (h : actions.length ≠ env.num_agents) : step env actions = none := by
  unfold step
  rw [if_neg h]

/-- Witness for C7: a one-action vector against the default four-agent
environment is rejected. -/
theorem step_length_guard_witness : step envC [0] = none :=
  step_length_guard envC [0] (by decide)

/-- C5, counterexample: the claim says an actions vector of correct length
holding the out-of-range code 4 makes `step` fail with `InvalidInput`; on
the code, `step envC [4, 0, 0, 0]` succeeds — `_get_next_position` checks no
action code and silently falls through to an unchanged position. -/
theorem invalid_action_accepted :
    ([4, 0, 0, 0] : List ℕ).length = envC.num_agents ∧
    (4 : ℕ) ∉ ([0, 1, 2, 3] : List ℕ) ∧
    (step envC [4, 0, 0, 0]).isSome = true := by decide

/-- C5, amended: a call with an actions vector of the correct length always
succeeds whatever the codes are, and any action code outside the enumeration
{0 = North, 1 = South, 2 = West, 3 = East} leaves the agent's candidate
position equal to its current position (a silent no-op, no error). -/
theorem invalid_action_noop (env : Env) (actions : List ℕ)
    (hlen : actions.length = env.num_agents) (pos : Pos) (a : ℕ)
    (ha : a ∉ ([0, 1, 2, 3] : List ℕ)) :
    (step env actions).isSome = true ∧ getNextPosition env.grid_size pos a = pos := by
  constructor
  · unfold step
    rw [if_pos hlen]
    rfl
  · simp only [List.mem_cons, List.not_mem_nil, or_false, not_or] at ha
    obtain ⟨h0, h1, h2, h3⟩ := ha
    unfold getNextPosition
    simp [h0, h1, h2, h3]

/-- Witness for C5 (amended): the out-of-range codes 4 and 7 are accepted
and act as no-ops. -/
theorem invalid_action_noop_witness :
    (step envC [4, 0, 0, 0]).isSome = true ∧
    getNextPosition envC.grid_size (2, 2) 7 = (2, 2) :=
  invalid_action_noop envC [4, 0, 0, 0] (by decide) (2, 2) 7 (by decide)

/-- C6, counterexample: the claim says `shuffle([0, 0, 1, 2, 3])` against
identifiers `[0, 1, 2, 3]` must be rejected as not a permutation; on the
code, the assert compares the two id sets only, so the duplicate-bearing
order is accepted. -/
theorem shuffle_accepts_duplicates :
    ¬ ([0, 0, 1, 2, 3] : List ℤ).Perm [0, 1, 2, 3] ∧
    (CentralClock.shuffle (CentralClock.init [0, 1, 2, 3]) [0, 0, 1, 2, 3]).isSome = true := by
  decide

/-- C6, amended: `shuffle` fails with an `InvalidInput` error exactly when
the proposed order's identifier set differs from the current identifier set
(an unknown id present, or some current id missing); a proposed order whose
duplicates still cover the full set — such as `[0, 0, 1, 2, 3]` against
`[0, 1, 2, 3]` — is accepted and installed as the new base order. -/
theorem shuffle_none_iff_set_ne (c : CentralClock) (order : List ℤ) :
    CentralClock.shuffle c order = none ↔ order.toFinset ≠ c.agent_ids.toFinset := by
  unfold CentralClock.shuffle
  split <;> simp_all

/-- C9: the shipped sensor can never be evaluated against the shipped
environment.  `opp_dir_mask`'s first statement reads `env.agent_states`
(sensors.py line 49), but `agent_states` is not among the attributes
`GridWorldEnv.__init__` / `reset` assign (the environment stores
`agent_positions`, `carrying` and `directions` instead), so the attribute
access raises rather than producing a table for the mask computation. -/
theorem sensor_attr_missing :
    oppDirMaskRequiredAttr ∉ gridWorldEnvAttrNames ∧
    ∀ env : Env, envGetAttr env oppDirMaskRequiredAttr = none := by
  refine ⟨by decide, fun env => rfl⟩

/-- On a non-empty base list, the k-th call served from cycle position `i`
yields entry `(i + k) mod length`. -/
theorem nthYield_closed (ids : List ℤ) (hne : ids ≠ []) :
    ∀ k i, nthYield ⟨ids, i⟩ k = some (ids.getD ((i + k) % ids.length) 0) := by
  intro k
  induction k with
  | zero =>
    intro i
    simp [nthYield, CentralClock.next, hne]
  | succ k ih =>
    intro i
    have hx : nthYield ⟨ids, i⟩ (k + 1) = nthYield ⟨ids, i + 1⟩ k := by
      simp [nthYield, CentralClock.next, hne]
    rw [hx, ih (i + 1)]
    have harith : i + 1 + k = i + (k + 1) := by omega
    rw [harith]

/-- C10: for every non-empty identifier list, the k-th call (0-indexed,
counting from construction) yields `agent_ids[k mod len(agent_ids)]`, and
immediately after a successful `shuffle` the calls restart cleanly from the
new base order's first element and proceed cyclically over it. -/
theorem clock_cycle_spec (ids : List ℤ) (hne : ids ≠ []) (k : ℕ) :
    nthYield (CentralClock.init ids) k = some (ids.getD (k % ids.length) 0) ∧
    ∀ c c' order, CentralClock.shuffle c order = some c' → order ≠ [] →
      ∀ j, nthYield c' j = some (order.getD (j % order.length) 0) := by
  constructor
  · have h := nthYield_closed ids hne k 0
    simpa [CentralClock.init] using h
  · intro c c' order hs hne' j
    have hc' : c' = ⟨order, 0⟩ := by
      unfold CentralClock.shuffle at hs
      split at hs
      · injection hs with h1
        exact h1.symm
      · cases hs
    subst hc'
    have h := nthYield_closed order hne' j 0
    simpa using h

/-- Witness for C10: `CentralClock([0,1,2,3])` yields 1 on its 5th call
(0-indexed), and after `shuffle([3,1,0,2])` the 6th subsequent call yields 0
— the cyclic repetitions 0,1,2,3,0,1,… and 3,1,0,2,3,1,0,… at those
indices. -/
theorem clock_cycle_spec_witness :
    nthYield (CentralClock.init [0, 1, 2, 3]) 5 = some 1 ∧
    nthYield (⟨[3, 1, 0, 2], 0⟩ : CentralClock) 6 = some 0 := by
  constructor
  · have h := (clock_cycle_spec [0, 1, 2, 3] (by decide) 5).1
    simpa using h
  · have h := (clock_cycle_spec [0, 1, 2, 3] (by decide) 5).2
      (CentralClock.init [0, 1, 2, 3]) ⟨[3, 1, 0, 2], 0⟩ [3, 1, 0, 2]
      (by decide) (by decide) 6
    simpa using h

/-- Membership in a candidate-position group. -/
theorem mem_collisionGroup (nps : List Pos) (p : Pos) (j : ℕ) :
    j ∈ collisionGroup nps p ↔ j < nps.length ∧ nps.getD j (0, 0) = p := by
  unfold collisionGroup
  rw [List.mem_filter, List.mem_range]
  simp

/-- C2: collision marking is exactly this function of the candidate
positions and the pre-move legs.  For any agent index `i` (with legs encoded
by the well-formed flags 0 = OutboundAtoB, 1 = ReturnBtoA), `i` is marked
collided iff its candidate cell is neither SiteA nor SiteB and the group of
agents sharing that candidate cell contains at least one OutboundAtoB agent
and at least one ReturnBtoA agent.  A group at a site, a singleton group
(both existentials cannot then hold), and a group whose members all share
one leg are therefore never collisions. -/
theorem detect_collisions_spec (locA locB : Pos) (dirs : List ℕ) (nps : List Pos)
    (i : ℕ) (_hi : i < nps.length)
    (hwf : ∀ j, j < nps.length → dirs.getD j 0 = 0 ∨ dirs.getD j 0 = 1) :
    isCollided locA locB dirs nps i = true ↔
      (nps.getD i (0, 0) ≠ locA ∧ nps.getD i (0, 0) ≠ locB ∧
       (∃ j, j < nps.length ∧ nps.getD j (0, 0) = nps.getD i (0, 0) ∧ dirs.getD j 0 = 0) ∧
       (∃ j, j < nps.length ∧ nps.getD j (0, 0) = nps.getD i (0, 0) ∧ dirs.getD j 0 = 1)) := by
  constructor
  · intro h
    unfold isCollided at h
    by_cases hsite : nps.getD i (0, 0) = locA ∨ nps.getD i (0, 0) = locB
    · rw [if_pos hsite] at h
      exact absurd h (by simp)
    rw [if_neg hsite] at h
    by_cases hlen2 : (collisionGroup nps (nps.getD i (0, 0))).length ≤ 1
    · rw [if_pos hlen2] at h
      exact absurd h (by simp)
    rw [if_neg hlen2, Bool.and_eq_true] at h
    obtain ⟨hA, hB⟩ := h
    rw [List.any_eq_true] at hA hB
    obtain ⟨j, hjmem, hj0⟩ := hA
    obtain ⟨j', hj'mem, hj'0⟩ := hB
    rw [mem_collisionGroup] at hjmem hj'mem
    push_neg at hsite
    have hj'ne : dirs.getD j' 0 ≠ 0 := by simpa using hj'0
    have hj'1 : dirs.getD j' 0 = 1 := by
      rcases hwf j' hj'mem.1 with h0 | h1
      · exact absurd h0 hj'ne
      · exact h1
    exact ⟨hsite.1, hsite.2, ⟨j, hjmem.1, hjmem.2, by simpa using hj0⟩,
      ⟨j', hj'mem.1, hj'mem.2, hj'1⟩⟩
  · rintro ⟨hA, hB, ⟨j, hjlt, hjp, hj0⟩, ⟨j', hj'lt, hj'p, hj'1⟩⟩
    have hjmem : j ∈ collisionGroup nps (nps.getD i (0, 0)) :=
      (mem_collisionGroup nps _ j).mpr ⟨hjlt, hjp⟩
    have hj'mem : j' ∈ collisionGroup nps (nps.getD i (0, 0)) :=
      (mem_collisionGroup nps _ j').mpr ⟨hj'lt, hj'p⟩
    have hne : j ≠ j' := by
      intro hEq
      rw [hEq, hj'1] at hj0
      cases hj0
    have hcard : ¬ (collisionGroup nps (nps.getD i (0, 0))).length ≤ 1 := by
      have h2 : ({j, j'} : Finset ℕ).card ≤
          (collisionGroup nps (nps.getD i (0, 0))).toFinset.card := by
        apply Finset.card_le_card
        intro x hx
        rw [List.mem_toFinset]
        rcases Finset.mem_insert.mp hx with rfl | hx'
        · exact hjmem
        · rw [Finset.mem_singleton] at hx'
          subst hx'
          exact hj'mem
      have h3 := (collisionGroup nps (nps.getD i (0, 0))).toFinset_card_le
      rw [Finset.card_pair hne] at h2
      omega
    unfold isCollided
    rw [if_neg (by tauto), if_neg hcard, Bool.and_eq_true]
    constructor
    · rw [List.any_eq_true]
      exact ⟨j, hjmem, by simpa using hj0⟩
    · rw [List.any_eq_true]
      exact ⟨j', hj'mem, by rw [hj'1]; rfl⟩

/-- Witness for C2: two agents on opposite legs both targeting the non-site
cell (2,2) are marked collided. -/
theorem detect_collisions_spec_witness :
    isCollided (0, 0) (4, 4) [0, 1] [(2, 2), (2, 2)] 0 = true :=
  (detect_collisions_spec (0, 0) (4, 4) [0, 1] [(2, 2), (2, 2)] 0 (by decide)
      (by decide)).mpr
    ⟨by decide, by decide, ⟨0, by decide, by decide, by decide⟩,
      ⟨1, by decide, by decide, by decide⟩⟩

/-- The record of a collided agent: position kept, penalty as reward. -/
theorem updateAgent_true (locA locB : Pos) (cp dr : ℚ) (pos np : Pos) (carry dir : ℕ) :
    updateAgent locA locB cp dr true pos np carry dir =
      { pos := pos, carry := carry, dir := dir, reward := cp,
        collided := true, delivered := false } := by
  unfold updateAgent
  rw [if_pos rfl]

/-- A non-collided agent's record always carries the candidate position. -/
theorem updateAgent_false_pos (locA locB : Pos) (cp dr : ℚ) (pos np : Pos) (carry dir : ℕ) :
    (updateAgent locA locB cp dr false pos np carry dir).pos = np := by
  unfold updateAgent
  rw [if_neg (by decide)]
  split_ifs <;> rfl

/-- C3: in a successful `step` call, a collided agent keeps its pre-tick
position and its reward for the tick is exactly the collision penalty, while
a non-collided agent's position becomes its candidate position.  (With C2
this gives the collision-symmetry property: two agents on opposite legs
targeting the same non-site cell both stay put and both are penalised.) -/
theorem step_collision_frame (env : Env) (actions : List ℕ) (env' : Env)
    (rewards : List ℚ) (h : step env actions = some (env', rewards))
    (i : ℕ) (hi : i < env.num_agents) :
    (isCollided env.location_A env.location_B env.directions
        (nextPositionsOf env actions) i = true →
      env'.agent_positions.getD i (0, 0) = env.agent_positions.getD i (0, 0) ∧
      rewards.getD i 0 = env.collision_penalty) ∧
    (isCollided env.location_A env.location_B env.directions
        (nextPositionsOf env actions) i = false →
      env'.agent_positions.getD i (0, 0) = (nextPositionsOf env actions).getD i (0, 0)) := by
  obtain ⟨hlen, hrew, hpos, hcar, hdir, _⟩ := step_some_eq h
  have hposD : env'.agent_positions.getD i (0, 0) =
      (updateAgent env.location_A env.location_B env.collision_penalty env.delivery_reward
        (isCollided env.location_A env.location_B env.directions (nextPositionsOf env actions) i)
        (env.agent_positions.getD i (0, 0)) ((nextPositionsOf env actions).getD i (0, 0))
        (env.carrying.getD i 0) (env.directions.getD i 0)).pos := by
    rw [hpos]
    unfold agentResults
    rw [List.map_map]
    exact getD_map_range _ _ i hi _
  have hrewD : rewards.getD i 0 =
      (updateAgent env.location_A env.location_B env.collision_penalty env.delivery_reward
        (isCollided env.location_A env.location_B env.directions (nextPositionsOf env actions) i)
        (env.agent_positions.getD i (0, 0)) ((nextPositionsOf env actions).getD i (0, 0))
        (env.carrying.getD i 0) (env.directions.getD i 0)).reward := by
    rw [hrew]
    unfold agentResults
    rw [List.map_map]
    exact getD_map_range _ _ i hi _
  constructor
  · intro hc
    rw [hposD, hrewD, hc, updateAgent_true]
    exact ⟨rfl, rfl⟩
  · intro hc
    rw [hposD, hc]
    exact updateAgent_false_pos _ _ _ _ _ _ _ _

/-- Witness for C3: in `envCollide`, agent 0 (outbound, heading for (2,2))
meets agent 1 (returning, also heading for (2,2)); after the step agent 0 is
still at (2,1) and its reward is the collision penalty -10. -/
theorem step_collision_frame_witness :
    ∃ env' rewards, step envCollide [3, 2] = some (env', rewards) ∧
      env'.agent_positions.getD 0 (0, 0) = envCollide.agent_positions.getD 0 (0, 0) ∧
      rewards.getD 0 0 = envCollide.collision_penalty := by
  obtain ⟨h1, h2⟩ :=
    (step_collision_frame envCollide [3, 2] _ _ rfl 0 (by decide)).1 (by decide)
  exact ⟨_, _, rfl, h1, h2⟩

/-- The record of a non-collided agent arriving at SiteA on the return leg:
pickup. -/
theorem updateAgent_false_pickup (locA locB : Pos) (cp dr : ℚ) (pos np : Pos)
    (carry dir : ℕ) (h : np = locA ∧ dir = 1) :
    updateAgent locA locB cp dr false pos np carry dir =
      { pos := np, carry := 1, dir := 0, reward := 0,
        collided := false, delivered := false } := by
  unfold updateAgent
  rw [if_neg (by decide), if_pos h]

/-- The record of a non-collided, carrying agent arriving at SiteB on the
outbound leg: delivery. -/
theorem updateAgent_false_deliver (locA locB : Pos) (cp dr : ℚ) (pos np : Pos)
    (carry dir : ℕ) (h1 : ¬ (np = locA ∧ dir = 1)) (h2 : np = locB ∧ dir = 0)
    (h3 : carry = 1) :
    updateAgent locA locB cp dr false pos np carry dir =
      { pos := np, carry := 0, dir := 1, reward := dr,
        collided := false, delivered := true } := by
  unfold updateAgent
  rw [if_neg (by decide), if_neg h1, if_pos h2, if_pos h3]

/-- A non-collided agent matching neither the pickup nor the delivery
condition keeps its carry flag and direction. -/
theorem updateAgent_false_unchanged (locA locB : Pos) (cp dr : ℚ) (pos np : Pos)
    (carry dir : ℕ) (h1 : ¬ (np = locA ∧ dir = 1))
    (h2 : ¬ (np = locB ∧ dir = 0 ∧ carry = 1)) :
    (updateAgent locA locB cp dr false pos np carry dir).carry = carry ∧
    (updateAgent locA locB cp dr false pos np carry dir).dir = dir := by
  unfold updateAgent
  rw [if_neg (by decide), if_neg h1]
  by_cases h3 : np = locB ∧ dir = 0
  · rw [if_pos h3]
    have hc : ¬ carry = 1 := fun hc => h2 ⟨h3.1, h3.2, hc⟩
    rw [if_neg hc]
    exact ⟨rfl, rfl⟩
  · rw [if_neg h3]
    exact ⟨rfl, rfl⟩

/-- The delivery flag of an update-loop iteration, as a single condition on
its inputs. -/
theorem updateAgent_delivered (locA locB : Pos) (cp dr : ℚ) (c : Bool) (pos np : Pos)
    (carry dir : ℕ) :
    (updateAgent locA locB cp dr c pos np carry dir).delivered =
      decide (c = false ∧ np = locB ∧ dir = 0 ∧ carry = 1) := by
  cases c with
  | true =>
    unfold updateAgent
    rw [if_pos rfl]
    simp
  | false =>
    unfold updateAgent
    rw [if_neg (by decide)]
    by_cases h2 : np = locA ∧ dir = 1
    · rw [if_pos h2]
      simp [h2.2]
    · rw [if_neg h2]
      by_cases h3 : np = locB ∧ dir = 0
      · by_cases h4 : carry = 1
        · rw [if_pos h3, if_pos h4]
          simp [h3.1, h3.2, h4]
        · rw [if_pos h3, if_neg h4]
          simp [h4]
      · rw [if_neg h3]
        symm
        simp only [decide_eq_false_iff_not]
        rintro ⟨-, hb, hd, -⟩
        exact h3 ⟨hb, hd⟩

/-- C4: for a non-collided agent in a successful `step` call — writing `np`
for its candidate (= new) position, `dir` and `carry` for its pre-move leg
and carry flag — (1) arriving at SiteA on the return leg sets
`carrying = 1`, flips the leg to OutboundAtoB and yields reward 0;
(2) otherwise arriving at SiteB on the outbound leg while carrying clears
`carrying`, flips the leg to ReturnBtoA and yields the delivery reward,
and the tick's delivery counter counts exactly the agents satisfying this
condition; (3) in every other case carry flag and leg are unchanged; and
(4) the pickup and delivery conditions are mutually exclusive for one agent
in one tick (the legs they require differ). -/
theorem step_pickup_delivery (env : Env) (actions : List ℕ) (env' : Env)
    (rewards : List ℚ) (h : step env actions = some (env', rewards))
    (i : ℕ) (hi : i < env.num_agents)
    (hnc : isCollided env.location_A env.location_B env.directions
      (nextPositionsOf env actions) i = false) :
    ((nextPositionsOf env actions).getD i (0, 0) = env.location_A ∧
        env.directions.getD i 0 = 1 →
      env'.carrying.getD i 0 = 1 ∧ env'.directions.getD i 0 = 0 ∧
      rewards.getD i 0 = 0) ∧
    ((nextPositionsOf env actions).getD i (0, 0) = env.location_B ∧
        env.directions.getD i 0 = 0 ∧ env.carrying.getD i 0 = 1 →
      env'.carrying.getD i 0 = 0 ∧ env'.directions.getD i 0 = 1 ∧
      rewards.getD i 0 = env.delivery_reward) ∧
    (¬ ((nextPositionsOf env actions).getD i (0, 0) = env.location_A ∧
        env.directions.getD i 0 = 1) →
     ¬ ((nextPositionsOf env actions).getD i (0, 0) = env.location_B ∧
        env.directions.getD i 0 = 0 ∧ env.carrying.getD i 0 = 1) →
      env'.carrying.getD i 0 = env.carrying.getD i 0 ∧
      env'.directions.getD i 0 = env.directions.getD i 0) ∧
    ¬ (((nextPositionsOf env actions).getD i (0, 0) = env.location_A ∧
        env.directions.getD i 0 = 1) ∧
       ((nextPositionsOf env actions).getD i (0, 0) = env.location_B ∧
        env.directions.getD i 0 = 0 ∧ env.carrying.getD i 0 = 1)) ∧
    env'.total_deliveries = env.total_deliveries +
      ((List.range env.num_agents).filter (fun j =>
        decide (isCollided env.location_A env.location_B env.directions
            (nextPositionsOf env actions) j = false ∧
          (nextPositionsOf env actions).getD j (0, 0) = env.location_B ∧
          env.directions.getD j 0 = 0 ∧ env.carrying.getD j 0 = 1))).length := by
  obtain ⟨hlen, hrew, hpos, hcar, hdir, hdeliv, _⟩ := step_some_eq h
  have hcarD : env'.carrying.getD i 0 =
      (updateAgent env.location_A env.location_B env.collision_penalty env.delivery_reward
        (isCollided env.location_A env.location_B env.directions (nextPositionsOf env actions) i)
        (env.agent_positions.getD i (0, 0)) ((nextPositionsOf env actions).getD i (0, 0))
        (env.carrying.getD i 0) (env.directions.getD i 0)).carry := by
    rw [hcar]
    unfold agentResults
    rw [List.map_map]
    exact getD_map_range _ _ i hi _
  have hdirD : env'.directions.getD i 0 =
      (updateAgent env.location_A env.location_B env.collision_penalty env.delivery_reward
        (isCollided env.location_A env.location_B env.directions (nextPositionsOf env actions) i)
        (env.agent_positions.getD i (0, 0)) ((nextPositionsOf env actions).getD i (0, 0))
        (env.carrying.getD i 0) (env.directions.getD i 0)).dir := by
    rw [hdir]
    unfold agentResults
    rw [List.map_map]
    exact getD_map_range _ _ i hi _
  have hrewD : rewards.getD i 0 =
      (updateAgent env.location_A env.location_B env.collision_penalty env.delivery_reward
        (isCollided env.location_A env.location_B env.directions (nextPositionsOf env actions) i)
        (env.agent_positions.getD i (0, 0)) ((nextPositionsOf env actions).getD i (0, 0))
        (env.carrying.getD i 0) (env.directions.getD i 0)).reward := by
    rw [hrew]
    unfold agentResults
    rw [List.map_map]
    exact getD_map_range _ _ i hi _
  refine ⟨?_, ?_, ?_, ?_, ?_⟩
  · intro hA
    rw [hcarD, hdirD, hrewD, hnc,
      updateAgent_false_pickup _ _ _ _ _ _ _ _ hA]
    exact ⟨rfl, rfl, rfl⟩
  · intro hB
    have h1 : ¬ ((nextPositionsOf env actions).getD i (0, 0) = env.location_A ∧
        env.directions.getD i 0 = 1) := by
      rintro ⟨-, hd1⟩
      rw [hB.2.1] at hd1
      cases hd1
    rw [hcarD, hdirD, hrewD, hnc,
      updateAgent_false_deliver _ _ _ _ _ _ _ _ h1 ⟨hB.1, hB.2.1⟩ hB.2.2]
    exact ⟨rfl, rfl, rfl⟩
  · intro h1 h2
    rw [hcarD, hdirD, hnc]
    exact updateAgent_false_unchanged _ _ _ _ _ _ _ _ h1 h2
  · rintro ⟨⟨-, hd1⟩, ⟨-, hd0, -⟩⟩
    rw [hd1] at hd0
    cases hd0
  · rw [hdeliv]
    congr 1
    unfold agentResults
    rw [List.filter_map, List.length_map]
    congr 1
    apply List.filter_congr
    intro j hj
    rw [Function.comp_apply, updateAgent_delivered]

/-- Witness for C4: in `envDeliver`, agent 0 (outbound, carrying, one cell
west of SiteB) moves east onto SiteB: its carry flag clears, its leg flips
to ReturnBtoA and its reward is the delivery reward. -/
theorem step_pickup_delivery_witness :
    ∃ env' rewards, step envDeliver [3, 0] = some (env', rewards) ∧
      env'.carrying.getD 0 0 = 0 ∧ env'.directions.getD 0 0 = 1 ∧
      rewards.getD 0 0 = envDeliver.delivery_reward := by
  obtain ⟨h1, h2, h3⟩ :=
    (step_pickup_delivery envDeliver [3, 0] _ _ rfl 0 (by decide) (by decide)).2.1
      (by decide)
  exact ⟨_, _, rfl, h1, h2, h3⟩

/-- C8: for every agent-state snapshot containing the queried agent, the
sensor returns a mask of 8 booleans whose i-th bit corresponds to the i-th
neighbour offset in the fixed order NW, N, NE, W, E, SW, S, SE (the order of
`neighbour_coords`); the bit is false when that neighbour cell lies outside
the grid, and otherwise it is true iff some agent other than the queried one
occupies exactly that cell with a differing direction flag.  The query is a
pure read: no state is mutated. -/
theorem opp_dir_mask_spec (env : SensorEnv) (agent_id : ℕ) (st : AgentSnapshot)
    (h : lookupState env.agent_states agent_id = some st) :
    ∃ m, opp_dir_mask env agent_id = some m ∧ m.length = 8 ∧
      ∀ i, i < 8 →
        (m.getD i false = true ↔
          (inGrid env.grid_size ((neighbour_coords st.position).getD i (0, 0)) ∧
           ∃ p ∈ env.agent_states, p.1 ≠ agent_id ∧
             p.2.position = (neighbour_coords st.position).getD i (0, 0) ∧
             p.2.direction ≠ st.direction)) := by
  refine ⟨(neighbour_coords st.position).map (fun q =>
      if ¬ (0 ≤ q.1 ∧ q.1 < env.grid_size ∧ 0 ≤ q.2 ∧ q.2 < env.grid_size) then false
      else env.agent_states.any (fun p =>
        decide (p.1 ≠ agent_id ∧ p.2.position = q ∧ p.2.direction ≠ st.direction))),
    ?_, ?_, ?_⟩
  · unfold opp_dir_mask
    rw [h]
  · rw [List.length_map]
    rfl
  · intro i hi
    have hlen : i < (neighbour_coords st.position).length := by
      unfold neighbour_coords
      simpa using hi
    simp only [getD_map _ _ i hlen (0, 0) false]
    set q := (neighbour_coords st.position).getD i (0, 0) with hq
    by_cases hg : inGrid env.grid_size q
    · have hcond : ¬ ¬ (0 ≤ q.1 ∧ q.1 < env.grid_size ∧ 0 ≤ q.2 ∧ q.2 < env.grid_size) :=
        not_not_intro hg
      rw [if_neg hcond]
      rw [List.any_eq_true]
      constructor
      · rintro ⟨p, hp, hdec⟩
        exact ⟨hg, p, hp, by simpa using hdec⟩
      · rintro ⟨-, p, hp, hcond⟩
        exact ⟨p, hp, by simpa using hcond⟩
    · have hcond : ¬ (0 ≤ q.1 ∧ q.1 < env.grid_size ∧ 0 ≤ q.2 ∧ q.2 < env.grid_size) := hg
      rw [if_pos hcond]
      constructor
      · intro hfalse
        cases hfalse
      · rintro ⟨hg', -⟩
        exact absurd hg' hg

/-- Witness for C8 (the sensor test of §8 of the specification): querying
agent 0 at (2,2) with agent 1 at (1,1) on the opposite leg yields a defined
8-bit mask. -/
theorem opp_dir_mask_spec_witness :
    ∃ m, opp_dir_mask sensorEnvW 0 = some m ∧ m.length = 8 ∧
      ∀ i, i < 8 →
        (m.getD i false = true ↔
          (inGrid sensorEnvW.grid_size
            ((neighbour_coords ((2 : ℤ), (2 : ℤ))).getD i (0, 0)) ∧
           ∃ p ∈ sensorEnvW.agent_states, p.1 ≠ 0 ∧
             p.2.position = (neighbour_coords ((2 : ℤ), (2 : ℤ))).getD i (0, 0) ∧
             p.2.direction ≠ 0)) :=
  opp_dir_mask_spec sensorEnvW 0 ⟨(2, 2), 0⟩ (by decide)

/-- A fresh reset satisfies the dead-system invariant. -/
theorem dead_reset (gs n : ℕ) (cp dr : ℚ) (locA locB : Pos) :
    DeadInv (resetEnv gs n cp dr locA locB) := by
  exact ⟨fun i => getD_replicate_zero n i, fun i => getD_replicate_zero n i, rfl, rfl, rfl⟩

/-- When every direction flag reads 0, no agent is ever marked collided: a
collision group needs a `directions != 0` member. -/
theorem isCollided_of_dirs_zero (locA locB : Pos) (dirs : List ℕ) (nps : List Pos)
    (hd : ∀ j, dirs.getD j 0 = 0) (i : ℕ) :
    isCollided locA locB dirs nps i = false := by
  unfold isCollided
  split_ifs with h1 h2
  · rfl
  · rfl
  · have hB : (collisionGroup nps (nps.getD i (0, 0))).any
        (fun j => ! decide (dirs.getD j 0 = 0)) = false := by
      rw [List.any_eq_false]
      intro j hj
      rw [hd j]
      decide
    rw [hB, Bool.and_false]

/-- A `step` from a dead state: every per-agent record keeps carry flag and
direction, pays reward 0, and raises no collision or delivery flag. -/
theorem dead_step_results (env : Env) (actions : List ℕ) (hc0 : ∀ i, env.carrying.getD i 0 = 0)
    (hd0 : ∀ i, env.directions.getD i 0 = 0) (j : ℕ) :
    updateAgent env.location_A env.location_B env.collision_penalty env.delivery_reward
      (isCollided env.location_A env.location_B env.directions (nextPositionsOf env actions) j)
      (env.agent_positions.getD j (0, 0)) ((nextPositionsOf env actions).getD j (0, 0))
      (env.carrying.getD j 0) (env.directions.getD j 0) =
    { pos := (nextPositionsOf env actions).getD j (0, 0),
      carry := env.carrying.getD j 0, dir := env.directions.getD j 0,
      reward := 0, collided := false, delivered := false } := by
  rw [isCollided_of_dirs_zero _ _ _ _ hd0 j]
  have hA : ¬ ((nextPositionsOf env actions).getD j (0, 0) = env.location_A ∧
      env.directions.getD j 0 = 1) := by
    rintro ⟨-, hd1⟩
    rw [hd0 j] at hd1
    cases hd1
  have hCne : ¬ env.carrying.getD j 0 = 1 := by
    rw [hc0 j]
    decide
  unfold updateAgent
  rw [if_neg (by decide), if_neg hA]
  by_cases h3 : (nextPositionsOf env actions).getD j (0, 0) = env.location_B ∧
      env.directions.getD j 0 = 0
  · rw [if_pos h3, if_neg hCne]
  · rw [if_neg h3]

/-- A successful `step` preserves the dead-system invariant, and every
reward it returns is 0. -/
theorem dead_step (env env' : Env) (actions : List ℕ) (rewards : List ℚ)
    (hinv : DeadInv env) (h : step env actions = some (env', rewards)) :
    DeadInv env' ∧ ∀ r ∈ rewards, r = 0 := by
  obtain ⟨hc0, hd0, hr0, hcol0, hdel0⟩ := hinv
  obtain ⟨hlen, hrew, hpos, hcar, hdir, hdeliv, hcolli, hrtot, _⟩ := step_some_eq h
  have hrew0 : ∀ r ∈ (agentResults env actions).map (fun r => r.reward), r = 0 := by
    intro x hx
    rw [List.mem_map] at hx
    obtain ⟨r, hr, rfl⟩ := hx
    unfold agentResults at hr
    rw [List.mem_map] at hr
    obtain ⟨j, hj, rfl⟩ := hr
    rw [dead_step_results env actions hc0 hd0 j]
  have hnocoll : (agentResults env actions).filter (fun r => r.collided) = [] := by
    rw [List.filter_eq_nil_iff]
    intro r hr
    unfold agentResults at hr
    rw [List.mem_map] at hr
    obtain ⟨j, hj, rfl⟩ := hr
    rw [dead_step_results env actions hc0 hd0 j]
    simp
  have hnodeliv : (agentResults env actions).filter (fun r => r.delivered) = [] := by
    rw [List.filter_eq_nil_iff]
    intro r hr
    unfold agentResults at hr
    rw [List.mem_map] at hr
    obtain ⟨j, hj, rfl⟩ := hr
    rw [dead_step_results env actions hc0 hd0 j]
    simp
  refine ⟨⟨fun i => ?_, fun i => ?_, ?_, ?_, ?_⟩, ?_⟩
  · rw [hcar]
    unfold agentResults
    rw [List.map_map]
    by_cases hi : i < env.num_agents
    · rw [getD_map_range _ _ i hi, Function.comp_apply,
        dead_step_results env actions hc0 hd0 i]
      exact hc0 i
    · rw [List.getD_eq_default]
      rw [List.length_map, List.length_range]
      omega
  · rw [hdir]
    unfold agentResults
    rw [List.map_map]
    by_cases hi : i < env.num_agents
    · rw [getD_map_range _ _ i hi, Function.comp_apply,
        dead_step_results env actions hc0 hd0 i]
      exact hd0 i
    · rw [List.getD_eq_default]
      rw [List.length_map, List.length_range]
      omega
  · rw [hrtot, hr0, List.sum_eq_zero hrew0]
    exact zero_add 0
  · rw [hcolli, hcol0, hnocoll]
    rfl
  · rw [hdeliv, hdel0, hnodeliv]
    rfl
  · intro r hr
    rw [hrew] at hr
    exact hrew0 r hr

/-- Every reachable state satisfies the dead-system invariant. -/
theorem reachable_dead (env : Env) (h : Reachable env) : DeadInv env := by
  induction h with
  | init gs n cp dr locA locB hA hB hne => exact dead_reset gs n cp dr locA locB
  | next env actions env' rewards hr hs ih =>
    exact (dead_step env env' actions rewards ih hs).1

/-- C1: in every state reachable from `reset` by any sequence of successful
`step` calls, every agent has `carrying = 0` and leg OutboundAtoB
(`directions[i] = 0`) — the pickup branch needs leg ReturnBtoA, which only a
delivery can set, and the delivery branch needs `carrying = 1`, which only a
pickup can set, so neither ever fires.  Consequently no candidate-position
group ever holds both legs, no agent is ever marked collided, every reward
`step` returns is exactly 0, and `total_reward`, `total_collisions` and
`total_deliveries` remain 0 after every number of ticks. -/
theorem gridworld_is_dead (env : Env) (h : Reachable env) :
    (∀ i, env.carrying.getD i 0 = 0) ∧ (∀ i, env.directions.getD i 0 = 0) ∧
    env.total_reward = 0 ∧ env.total_collisions = 0 ∧ env.total_deliveries = 0 ∧
    (∀ actions i, isCollided env.location_A env.location_B env.directions
      (nextPositionsOf env actions) i = false) ∧
    (∀ actions env' rewards, step env actions = some (env', rewards) →
      ∀ r ∈ rewards, r = 0) := by
  obtain ⟨hc, hd, hr, hcol, hdel⟩ := reachable_dead env h
  exact ⟨hc, hd, hr, hcol, hdel,
    fun actions i => isCollided_of_dirs_zero _ _ _ _ hd i,
    fun actions env' rewards hs =>
      (dead_step env env' actions rewards ⟨hc, hd, hr, hcol, hdel⟩ hs).2⟩

/-- Witness for C1: the freshly reset default environment is reachable and
its reward and event counters are all 0, and no agent in it is marked
collided whatever the submitted actions. -/
theorem gridworld_is_dead_witness :
    envC.total_reward = 0 ∧ envC.total_collisions = 0 ∧ envC.total_deliveries = 0 ∧
    isCollided envC.location_A envC.location_B envC.directions
      (nextPositionsOf envC [0, 1, 2, 3]) 0 = false := by
  have h := gridworld_is_dead envC
    (Reachable.init 5 4 (-10) 1 (0, 0) (1, 1) (by decide) (by decide) (by decide))
  exact ⟨h.2.2.1, h.2.2.2.1, h.2.2.2.2.1, h.2.2.2.2.2.1 [0, 1, 2, 3] 0⟩

end GridWorld
